import Mathlib

/-!
Shallow embedding of the provisioning and job-lifecycle pipeline implemented
by class BedrockSupportPipeline in bedrock_training_pipeline.py, and proofs
about its state persistence, resource reuse, job submission, monitoring loop,
dataset preparation and JSONL validation.

External AWS calls are modelled by explicit parameters giving the outcome the
provider would return (success flags, returned identifiers), and every
operation additionally returns the list of provider requests and local effects
(sleeps, config-file writes) it performs, in order.
-/

namespace BedrockPipeline

/-- a JSON scalar stored in the persisted configuration file: a string or
null (role_arn and role_name can be Python None). -/
inductive ConfigVal where
  | null : ConfigVal
  | str (s : String) : ConfigVal
  deriving DecidableEq, Repr

/-- lookup of a key in the association-list model of a Python dict. -/
def lookupKey (cfg : List (String × ConfigVal)) (k : String) : Option ConfigVal :=
  match cfg with
  | [] => none
  | kv :: rest => if kv.1 = k then some kv.2 else lookupKey rest k

/-- Python dict assignment d[k] = v on the association-list model: replace the
binding in place when the key exists, append it otherwise. -/
def insertKey (cfg : List (String × ConfigVal)) (k : String) (v : ConfigVal) :
    List (String × ConfigVal) :=
  match cfg with
  | [] => [(k, v)]
  | kv :: rest => if kv.1 = k then (k, v) :: rest else kv :: insertKey rest k v

/-- the instance attributes of BedrockSupportPipeline that _save_config reads
(lines 51-63): bucket_name, model_name, role_arn, role_name, region. -/
structure PipelineFields where
  bucket_name : String
  model_name : String
  role_arn : Option String
  role_name : Option String
  region : String
  deriving DecidableEq, Repr

/-- None becomes JSON null, a present string stays a string. -/
def optVal : Option String → ConfigVal
  | none => ConfigVal.null
  | some s => ConfigVal.str s

/-- Embeds _save_config (lines 51-63). The written file is rebuilt from the
five instance attributes plus last_updated; the in-memory dict self.config is
not consulted, so keys stored only in self.config never reach the file. -/
def save_config (f : PipelineFields) (last_updated : String) : List (String × ConfigVal) :=
  [("bucket_name", ConfigVal.str f.bucket_name),
   ("model_name", ConfigVal.str f.model_name),
   ("role_arn", optVal f.role_arn),
   ("role_name", optVal f.role_name),
   ("region", ConfigVal.str f.region),
   ("last_updated", ConfigVal.str last_updated)]

/-- in-memory pipeline object: the attributes read by _save_config plus the
dict self.config loaded at startup. -/
structure Pipeline where
  fields : PipelineFields
  config : List (String × ConfigVal)
  deriving DecidableEq, Repr

/-- the AWS requests the pipeline issues, with the arguments relevant here. -/
inductive AwsRequest where
  | headBucket (bucket : String)
  | createBucket (bucket : String) (region : String)
  | putBucketVersioning (bucket : String)
  | getRole (roleName : Option String)
  | createRole (roleName : String)
  | putRolePolicy (roleName : String)
  | uploadFile (bucket : String) (key : String)
  | createModelCustomizationJob (jobName : String) (roleArn : Option String)
      (trainUri : String) (valUri : String) (outputUri : String)
  | getModelCustomizationJob (jobIdentifier : String)
  deriving DecidableEq, Repr

/-- an observable effect of one pipeline operation, in program order:
a provider request, a time.sleep of the given number of seconds, or a write
of the configuration file with the given content. -/
inductive Action where
  | request (r : AwsRequest)
  | sleep (seconds : Nat)
  | saveConfig (file : List (String × ConfigVal))
  deriving DecidableEq, Repr

/-- the provider requests appearing in a trace. -/
def requestsOf (tr : List Action) : List AwsRequest :=
  tr.filterMap (fun a => match a with | Action.request r => some r | _ => none)

/-- the sleep durations appearing in a trace. -/
def sleepsOf (tr : List Action) : List Nat :=
  tr.filterMap (fun a => match a with | Action.sleep n => some n | _ => none)

/-- the configuration-file contents written during a trace. -/
def savedConfigsOf (tr : List Action) : List (List (String × ConfigVal)) :=
  tr.filterMap (fun a => match a with | Action.saveConfig f => some f | _ => none)

/-- true exactly for the two creation requests (create_bucket, create_role). -/
def isCreationRequest : Action → Bool
  | Action.request (AwsRequest.createBucket _ _) => true
  | Action.request (AwsRequest.createRole _) => true
  | _ => false

/-- Embeds create_s3_bucket (lines 93-126). headOk is the outcome of the
head_bucket existence probe (its exception is swallowed by the inner
try/except); createOk is the outcome of the create_bucket plus
put_bucket_versioning block, whose exception propagates. On the reuse path the
bucket name is returned and the config saved with no creation request; on the
creation path create_bucket (with a LocationConstraint outside us-east-1) and
put_bucket_versioning are issued before saving. -/
def create_s3_bucket (p : Pipeline) (headOk : Bool) (createOk : Bool) (now : String) :
    Except String String × Pipeline × List Action :=
  let b := p.fields.bucket_name
  if headOk then
    (Except.ok b, p,
      [Action.request (AwsRequest.headBucket b),
       Action.saveConfig (save_config p.fields now)])
  else if createOk then
    (Except.ok b, p,
      [Action.request (AwsRequest.headBucket b),
       Action.request (AwsRequest.createBucket b p.fields.region),
       Action.request (AwsRequest.putBucketVersioning b),
       Action.saveConfig (save_config p.fields now)])
  else
    (Except.error "bucket creation rejected", p,
      [Action.request (AwsRequest.headBucket b),
       Action.request (AwsRequest.createBucket b p.fields.region)])

/-- the role name built at line 140 from the current timestamp. -/
def roleNameFor (ts : Nat) : String := "BedrockSupportTrainingRole-" ++ toString ts

/-- Embeds the creation branch of create_iam_role (lines 140-187): mutate
self.role_name, create the role, attach the policy, sleep the fixed 10-second
settle delay, save the config, return the provider-assigned ARN. On a
rejected creation the exception propagates and no sleep or save happens. -/
def createRolePath (p : Pipeline) (createOk : Bool) (ts : Nat) (providerArn : String)
    (now : String) : Except String String × Pipeline × List Action :=
  let rn := roleNameFor ts
  let f1 := { p.fields with role_name := some rn }
  if createOk then
    let f2 := { f1 with role_arn := some providerArn }
    (Except.ok providerArn, { p with fields := f2 },
      [Action.request (AwsRequest.createRole rn),
       Action.request (AwsRequest.putRolePolicy rn),
       Action.sleep 10,
       Action.saveConfig (save_config f2 now)])
  else
    (Except.error "role creation rejected", { p with fields := f1 },
      [Action.request (AwsRequest.createRole rn)])

/-- Embeds create_iam_role (lines 128-187). When self.role_arn is recorded,
get_role is probed (getRoleOk is its outcome, the except swallows failures);
on success the recorded ARN is returned with no creation, no sleep and no
save. Otherwise the creation branch runs. -/
def create_iam_role (p : Pipeline) (getRoleOk : Bool) (createOk : Bool) (ts : Nat)
    (providerArn : String) (now : String) : Except String String × Pipeline × List Action :=
  match p.fields.role_arn with
  | some arn =>
      if getRoleOk then
        (Except.ok arn, p, [Action.request (AwsRequest.getRole p.fields.role_name)])
      else
        let o := createRolePath p createOk ts providerArn now
        (o.1, o.2.1, Action.request (AwsRequest.getRole p.fields.role_name) :: o.2.2)
  | none => createRolePath p createOk ts providerArn now

/-- Embeds create_fine_tuning_job (lines 356-394). providerResp is the
outcome of the create_model_customization_job call. There is no local check
on role_arn: the request is issued unconditionally with whatever value was
passed. On success the job ARN is stored into the in-memory dict self.config
and _save_config is called, which rebuilds the file from the instance
attributes only. -/
def create_fine_tuning_job (p : Pipeline) (train_s3_uri val_s3_uri : String)
    (role_arn : Option String) (providerResp : Except String String) (now : String) :
    Except String String × Pipeline × List Action :=
  let outUri := "s3://" ++ p.fields.bucket_name ++ "/output/"
  let req := AwsRequest.createModelCustomizationJob p.fields.model_name role_arn
      train_s3_uri val_s3_uri outUri
  match providerResp with
  | Except.error e => (Except.error e, p, [Action.request req])
  | Except.ok job_arn =>
      let cfg := insertKey (insertKey p.config "job_arn" (ConfigVal.str job_arn))
          "job_name" (ConfigVal.str p.fields.model_name)
      let p2 : Pipeline := { p with config := cfg }
      (Except.ok job_arn, p2,
        [Action.request req, Action.saveConfig (save_config p2.fields now)])

/-- one status response of get_model_customization_job, as read by
monitor_training_job: the status string, the optional trainingMetrics pair
(trainingLoss, validationLoss, only printed), the optional outputModelArn and
the optional failureMessage (only printed). -/
structure JobResponse where
  status : String
  trainingMetrics : Option (Option String × Option String)
  outputModelArn : Option String
  failureMessage : Option String
  deriving DecidableEq, Repr

/-- one iteration of the polling loop, as seen from the local process: either
the status call returns a response, or a KeyboardInterrupt fires, or the
status call raises some other exception. -/
inductive PollEvent where
  | resp (r : JobResponse)
  | interrupt
  | excp
  deriving DecidableEq, Repr

/-- job_arn.split(sep)[-1] at line 404. -/
def jobNameOf (job_arn : String) : String := (job_arn.splitOn "/").getLastD job_arn

/-- Embeds the while-loop of monitor_training_job (lines 406-443) over the
sequence of poll iterations. KeyboardInterrupt returns None explicitly; any
other exception breaks, falling off the loop and returning None implicitly;
a Completed response returns outputModelArn when present and otherwise breaks
to the implicit None; Failed and Stopped break to the implicit None; any
other status (InProgress included) polls again. The second component lists
the status queries issued. -/
def monitor_go (jn : String) : List PollEvent → Option String × List AwsRequest
  | [] => (none, [])
  | PollEvent.interrupt :: _ => (none, [])
  | PollEvent.excp :: _ => (none, [AwsRequest.getModelCustomizationJob jn])
  | PollEvent.resp r :: rest =>
      if r.status = "InProgress" then
        let o := monitor_go jn rest
        (o.1, AwsRequest.getModelCustomizationJob jn :: o.2)
      else if r.status = "Completed" then
        (r.outputModelArn, [AwsRequest.getModelCustomizationJob jn])
      else if r.status = "Failed" ∨ r.status = "Stopped" then
        (none, [AwsRequest.getModelCustomizationJob jn])
      else
        let o := monitor_go jn rest
        (o.1, AwsRequest.getModelCustomizationJob jn :: o.2)

/-- Embeds monitor_training_job (lines 396-443): derive the job name from the
ARN and run the polling loop. -/
def monitor_training_job (job_arn : String) (events : List PollEvent) :
    Option String × List AwsRequest :=
  monitor_go (jobNameOf job_arn) events

/-- the value a single terminal response makes the loop return: the
outputModelArn field for Completed, None for Failed and Stopped. -/
def outcomeOfResponse (r : JobResponse) : Option String :=
  if r.status = "Completed" then r.outputModelArn else none

/-- one row of the input DataFrame, with the columns prepare_training_data
reads. CATEGORY, SEVERITY and RESOLUTION_DESCRIPTION can be NaN (None here);
the remaining columns are read unconditionally. -/
structure Row where
  ticket_title : String
  ticket_description : String
  category : Option String
  severity : Option String
  priority : String
  assigned_team : String
  customer_tier : String
  resolution_description : Option String
  deriving DecidableEq, Repr

/-- one content item of a Nova message. -/
structure ContentItem where
  text : String
  deriving DecidableEq, Repr

/-- one chat message of a Nova example. -/
structure Message where
  role : String
  content : List ContentItem
  deriving DecidableEq, Repr

/-- one training or validation example in the Nova Pro format. -/
structure NovaExample where
  system : List ContentItem
  messages : List Message
  deriving DecidableEq, Repr

/-- how pandas renders a NaN field when it is interpolated into an f-string
on a path that did not guard it. -/
def orNan : Option String → String
  | none => "nan"
  | some s => s

/-- the fixed system prompt used by all three example templates. -/
def systemText : String :=
  "You are a support ticket classification assistant. Analyze customer support tickets and provide accurate categorization, severity assessment, and routing recommendations."

/-- the classification example built at lines 223-241 from one train row. -/
def classification_example (r : Row) : NovaExample :=
  { system := [{ text := systemText }],
    messages :=
      [{ role := "user",
         content := [{ text :=
           "Classify this support ticket:\n\nTitle: " ++ r.ticket_title ++
           "\n\nDescription: " ++ r.ticket_description ++
           "\n\nProvide the category, severity, and recommended team." }] },
       { role := "assistant",
         content := [{ text :=
           "Category: " ++ orNan r.category ++
           "\nSeverity: " ++ orNan r.severity ++
           "\nPriority: " ++ r.priority ++
           "\nRecommended Team: " ++ r.assigned_team ++
           "\nCustomer Tier: " ++ r.customer_tier }] }] }

/-- the resolution-recommendation example built at lines 246-264 from one
train row that has a non-empty RESOLUTION_DESCRIPTION. -/
def resolution_example (r : Row) : NovaExample :=
  { system := [{ text := systemText }],
    messages :=
      [{ role := "user",
         content := [{ text :=
           "A support ticket was submitted:\n\nTitle: " ++ r.ticket_title ++
           "\nDescription: " ++ r.ticket_description ++
           "\nSeverity: " ++ orNan r.severity ++
           "\n\nWhat steps would you recommend to resolve this?" }] },
       { role := "assistant",
         content := [{ text :=
           "Recommended Resolution:\n" ++ orNan r.resolution_description ++
           "\n\nThis ticket should be assigned to: " ++ r.assigned_team }] }] }

/-- the validation example built at lines 272-290 from one validation row;
same shape as the classification example. -/
def validation_example (r : Row) : NovaExample :=
  classification_example r

/-- the examples one train row contributes (lines 218-265): rows whose
CATEGORY or SEVERITY is NaN are skipped by the continue; otherwise the
classification example is always emitted and the resolution example is added
when RESOLUTION_DESCRIPTION is present and truthy (non-empty). -/
def trainExamplesOfRow (r : Row) : List NovaExample :=
  if r.category.isSome && r.severity.isSome then
    classification_example r ::
      (match r.resolution_description with
       | some s => if s = "" then [] else [resolution_example r]
       | none => [])
  else []

/-- the training examples accumulated over the train rows, in row order. -/
def trainExamples : List Row → List NovaExample
  | [] => []
  | r :: rs => trainExamplesOfRow r ++ trainExamples rs

/-- the validation examples accumulated over the validation rows
(lines 268-291), with the same NaN skip and one example per kept row. -/
def valExamples : List Row → List NovaExample
  | [] => []
  | r :: rs =>
      (if r.category.isSome && r.severity.isSome then [validation_example r] else []) ++
        valExamples rs

/-- max_tickets = max_samples // 2 (line 196). -/
def max_tickets (max_samples : Nat) : Nat := max_samples / 2

/-- Embeds the sampling step of lines 198-201: when the frame has more rows
than max_tickets, df.sample(n=max_tickets, random_state=42) replaces it. The
pseudo-random draw is modelled by an abstract sampler argument; the theorems
that depend on it assume only what pandas guarantees, that the drawn rows
come from the frame (and, where needed, how many are drawn). -/
def sampledDf (sampler : List Row → Nat → List Row) (df : List Row)
    (max_samples : Nat) : List Row :=
  if max_tickets max_samples < df.length then sampler df (max_tickets max_samples) else df

/-- train_size = int(total_records * train_ratio) with the default
train_ratio of 0.8 (lines 203-207); the claims proved here do not depend on
the float rounding at the boundary, so the exact value 4/5 is used. -/
def trainSplit (rows : List Row) : List Row := rows.take (rows.length * 4 / 5)

/-- the complementary validation slice df[train_size:]. -/
def valSplit (rows : List Row) : List Row := rows.drop (rows.length * 4 / 5)

/-- the training examples generated before the final trim (lines 213-265). -/
def rawTrainingData (sampler : List Row → Nat → List Row) (df : List Row)
    (max_samples : Nat) : List NovaExample :=
  trainExamples (trainSplit (sampledDf sampler df max_samples))

/-- the final trim of lines 294-296: drop everything past max_samples when
the generated list is longer. -/
def trimmedTo (max_samples : Nat) (l : List NovaExample) : List NovaExample :=
  if max_samples < l.length then l.take max_samples else l

/-- the training examples prepare_training_data ends up with. -/
def trainingDataOf (sampler : List Row → Nat → List Row) (df : List Row)
    (max_samples : Nat) : List NovaExample :=
  trimmedTo max_samples (rawTrainingData sampler df max_samples)

/-- the validation examples prepare_training_data ends up with. -/
def validationDataOf (sampler : List Row → Nat → List Row) (df : List Row)
    (max_samples : Nat) : List NovaExample :=
  valExamples (valSplit (sampledDf sampler df max_samples))

/-- the ValueError message of line 302. -/
def notEnoughMsg (n : Nat) : String :=
  "Not enough training samples (" ++ toString n ++ "). Minimum is 8."

/-- Embeds prepare_training_data (lines 189-317) up to its observable result:
sample, split, generate, trim, then raise the ValueError when fewer than 8
training examples remain, otherwise return both example lists (which the
code then writes to the two JSONL files in this order). -/
def prepare_training_data (sampler : List Row → Nat → List Row) (df : List Row)
    (max_samples : Nat) : Except String (List NovaExample × List NovaExample) :=
  if (trainingDataOf sampler df max_samples).length < 8 then
    Except.error (notEnoughMsg (trainingDataOf sampler df max_samples).length)
  else
    Except.ok (trainingDataOf sampler df max_samples, validationDataOf sampler df max_samples)

/-- the DatasetSplit well-formedness check: a non-empty system turn and a
leading user/assistant message pair. -/
def wellFormedExample (e : NovaExample) : Bool :=
  !e.system.isEmpty &&
    match e.messages with
    | u :: a :: _ => u.role == "user" && a.role == "assistant"
    | _ => false

/-- the invariant claimed for the outcome of preparation: every produced
example is well-formed and the training list respects the 10000 ceiling
(nothing is claimed about a raised ValueError, which produces no examples). -/
def ExamplesInvariant : Except String (List NovaExample × List NovaExample) → Prop
  | Except.error _ => True
  | Except.ok tv => ((tv.1 ++ tv.2).all wellFormedExample = true) ∧ tv.1.length ≤ 10000

/-- a JSON value, as produced by json.loads on one line of a JSONL file. -/
inductive Json where
  | null : Json
  | bool (b : Bool) : Json
  | num (n : Int) : Json
  | str (s : String) : Json
  | arr (items : List Json) : Json
  | obj (fields : List (String × Json)) : Json

/-- dict access data[k] on a parsed JSON object. -/
def getVal (fields : List (String × Json)) (k : String) : Option Json :=
  (fields.find? (fun kv => kv.1 == k)).map (fun kv => kv.2)

/-- the key-membership test k in data on a parsed JSON object. -/
def hasKey (fields : List (String × Json)) (k : String) : Bool :=
  (getVal fields k).isSome

/-- Python len() on a JSON value: defined for arrays, strings and objects,
a TypeError (None here) otherwise. -/
def pyLen : Json → Option Nat
  | Json.arr items => some items.length
  | Json.str s => some s.length
  | Json.obj fields => some fields.length
  | _ => none

/-- the assert of line 329 on the value found under the messages key:
len(data[messages]) >= 2, a raise when the value has no len(). -/
def checkMessages : Option Json → Bool
  | some v =>
      (match pyLen v with
       | some n => decide (2 ≤ n)
       | none => false)
  | none => false

/-- the checks lines 325-329 run on one parsed line: a failed json.loads or a
failed assert raises (false). A non-dict line always ends in a raise: either
key membership fails, or the data[messages] subscript is a TypeError. -/
def checkLine : Option Json → Bool
  | none => false
  | some (Json.obj fields) =>
      hasKey fields "system" && checkMessages (getVal fields "messages")
  | some _ => false

/-- Embeds _validate_jsonl_format (lines 319-334) on the parse results of the
file lines: only lines[:3] are inspected, and the file is declared valid when
each of those passes checkLine. -/
def validate_jsonl_format (lines : List (Option Json)) : Bool :=
  (lines.take 3).all checkLine

/-- the pipeline steps of run_pipeline relevant to the ordering claims. -/
inductive Step where
  | prepareData
  | uploadS3
  | createJob
  | monitorJob
  deriving DecidableEq, Repr

/-- Embeds the tail of run_pipeline (lines 513-516): prepare_training_data
runs first and its ValueError propagates to the except of line 535, so
upload_to_s3, create_fine_tuning_job and monitor_training_job execute only
when preparation succeeded. -/
def run_pipeline_after_load (sampler : List Row → Nat → List Row) (df : List Row) :
    List Step :=
  match prepare_training_data sampler df 10000 with
  | Except.error _ => [Step.prepareData]
  | Except.ok _ => [Step.prepareData, Step.uploadS3, Step.createJob, Step.monitorJob]

/-! Concrete fixtures used to evaluate the definitions at specific inputs. -/

/-- a concrete sampler standing in for df.sample: keep the first n rows. It
draws from the frame, which is all the theorems assume about a sampler. -/
def takeSampler : List Row → Nat → List Row := fun df n => df.take n

/-- a well-formed ticket row with a non-empty resolution. -/
def sampleRow (i : Nat) : Row :=
  { ticket_title := "Ticket " ++ toString i,
    ticket_description := "Something is broken",
    category := some "Technical Issue",
    severity := some "High",
    priority := "P1",
    assigned_team := "Infrastructure",
    customer_tier := "Premium",
    resolution_description := some "Restart the affected service" }

/-- three well-formed rows: they generate four training examples, below the
floor of eight. -/
def df3 : List Row := [sampleRow 1, sampleRow 2, sampleRow 3]

/-- a row whose CATEGORY is NaN: the preparation loops skip it. -/
def nullCategoryRow : Row :=
  { ticket_title := "Ticket n",
    ticket_description := "Something is broken",
    category := none,
    severity := some "High",
    priority := "P1",
    assigned_team := "Infrastructure",
    customer_tier := "Premium",
    resolution_description := some "Restart the affected service" }

/-- eight rows, all with a NaN CATEGORY: enough rows, no usable example. -/
def df8nulls : List Row := List.replicate 8 nullCategoryRow

/-- a concrete pipeline whose state already records a bucket and a role. -/
def samplePipeline : Pipeline :=
  { fields :=
      { bucket_name := "support-bedrock-training-1700000000",
        model_name := "support-classifier-1700000000",
        role_arn := some "arn:aws:iam::123456789012:role/BedrockSupportTrainingRole-1700000000",
        role_name := some "BedrockSupportTrainingRole-1700000000",
        region := "us-east-1" },
    config := [] }

/-- the job ARN the stub provider assigns in the concrete runs. -/
def sampleJobArn : String :=
  "arn:aws:bedrock:us-east-1:123456789012:model-customization-job/test123"

/-- a Failed status response carrying a diagnostic message. -/
def failedResponse : JobResponse :=
  { status := "Failed",
    trainingMetrics := none,
    outputModelArn := none,
    failureMessage := some "training diverged" }

/-- a Completed status response carrying the output model identifier. -/
def completedResponse : JobResponse :=
  { status := "Completed",
    trainingMetrics := none,
    outputModelArn := some "model-xyz",
    failureMessage := none }

/-- a message array with the two required turns. -/
def goodMessages : List Json :=
  [Json.obj [("role", Json.str "user")], Json.obj [("role", Json.str "assistant")]]

/-- a parsed JSONL line that satisfies every check of lines 325-329. -/
def goodJsonLine : List (String × Json) :=
  [("system", Json.arr [Json.obj [("text", Json.str "You are an assistant.")]]),
   ("messages", Json.arr goodMessages)]

/-- a successful concrete submission on samplePipeline, with the role the
state records. -/
def sampleSubmission : Except String String × Pipeline × List Action :=
  create_fine_tuning_job samplePipeline
    "s3://support-bedrock-training-1700000000/training/training_data.jsonl"
    "s3://support-bedrock-training-1700000000/validation/validation_data.jsonl"
    samplePipeline.fields.role_arn (Except.ok sampleJobArn) "2026-10-12T00:00:00"

/-- a concrete submission in a state where no role has ever been recorded
(role_arn is None), with a provider that accepts the request. -/
def sampleSubmissionNoRole : Except String String × Pipeline × List Action :=
  create_fine_tuning_job samplePipeline "s3://t" "s3://v" none
    (Except.ok sampleJobArn) "2026-10-12T00:00:00"

/-! Helper lemmas shared by the claim proofs. -/

/-- a Failed or Stopped response ends the loop at once with the implicit
None, after the single status query of that iteration. -/
lemma monitor_go_failed_or_stopped (jn : String) (r : JobResponse) (t : List PollEvent)
    (h : r.status = "Failed" ∨ r.status = "Stopped") :
    monitor_go jn (PollEvent.resp r :: t)
      = (none, [AwsRequest.getModelCustomizationJob jn]) := by
  have h1 : ¬ r.status = "InProgress" := by rcases h with h | h <;> rw [h] <;> decide
  have h2 : ¬ r.status = "Completed" := by rcases h with h | h <;> rw [h] <;> decide
  simp only [monitor_go, if_neg h1, if_neg h2, if_pos h]

/-- a Completed response ends the loop at once, returning its outputModelArn
field, after the single status query of that iteration. -/
lemma monitor_go_completed (jn : String) (c : JobResponse) (t : List PollEvent)
    (hc : c.status = "Completed") :
    monitor_go jn (PollEvent.resp c :: t)
      = (c.outputModelArn, [AwsRequest.getModelCustomizationJob jn]) := by
  have h1 : ¬ c.status = "InProgress" := by rw [hc]; decide
  simp only [monitor_go, if_neg h1, if_pos hc]

/-- both loop templates emit a well-formed classification example. -/
lemma wellFormed_classification (r : Row) :
    wellFormedExample (classification_example r) = true := rfl

/-- the resolution template also emits a well-formed example. -/
lemma wellFormed_resolution (r : Row) :
    wellFormedExample (resolution_example r) = true := rfl

/-- every example one train row contributes is well-formed. -/
lemma trainExamplesOfRow_all (r : Row) :
    (trainExamplesOfRow r).all wellFormedExample = true := by
  unfold trainExamplesOfRow
  split
  · cases hr : r.resolution_description with
    | none => simp [wellFormed_classification]
    | some s =>
        by_cases hs : s = "" <;>
          simp [hs, wellFormed_classification, wellFormed_resolution]
  · rfl

/-- every generated training example is well-formed. -/
lemma trainExamples_all (rows : List Row) :
    (trainExamples rows).all wellFormedExample = true := by
  induction rows with
  | nil => rfl
  | cons r rs ih => simp [trainExamples, List.all_append, trainExamplesOfRow_all, ih]

/-- every generated validation example is well-formed. -/
lemma valExamples_all (rows : List Row) :
    (valExamples rows).all wellFormedExample = true := by
  induction rows with
  | nil => rfl
  | cons r rs ih =>
      unfold valExamples
      split <;> simp [List.all_append, ih, validation_example, wellFormed_classification]

/-- a prefix keeps an all-true predicate. -/
lemma all_take {p : NovaExample → Bool} {l : List NovaExample} (n : Nat)
    (h : l.all p = true) : (l.take n).all p = true := by
  rw [List.all_eq_true] at h ⊢
  exact fun x hx => h x (List.take_subset n l hx)

/-- the trim keeps an all-true predicate. -/
lemma trimmedTo_all {p : NovaExample → Bool} {l : List NovaExample} (ms : Nat)
    (h : l.all p = true) : (trimmedTo ms l).all p = true := by
  unfold trimmedTo
  split
  · exact all_take ms h
  · exact h

/-- after the trim the list never exceeds the ceiling. -/
lemma trimmedTo_length_le (ms : Nat) (l : List NovaExample) :
    (trimmedTo ms l).length ≤ ms := by
  unfold trimmedTo
  split
  · rw [List.length_take]
    exact min_le_left _ _
  · next h => exact Nat.le_of_not_lt h

/-- a row with a NaN CATEGORY contributes no training example. -/
lemma trainExamplesOfRow_null (r : Row) (h : r.category = none) :
    trainExamplesOfRow r = [] := by
  unfold trainExamplesOfRow
  rw [h]
  rfl

/-- a frame of NaN-CATEGORY rows generates no training example at all. -/
lemma trainExamples_nil (rows : List Row) (h : ∀ r ∈ rows, r.category = none) :
    trainExamples rows = [] := by
  induction rows with
  | nil => rfl
  | cons r rs ih =>
      have h1 : trainExamplesOfRow r = [] :=
        trainExamplesOfRow_null r (h r (List.mem_cons_self r rs))
      have h2 : trainExamples rs = [] :=
        ih (fun x hx => h x (List.mem_cons_of_mem r hx))
      calc trainExamples (r :: rs) = trainExamplesOfRow r ++ trainExamples rs := rfl
        _ = [] := by rw [h1, h2]; rfl

/-- one parsed line that is an object with a system key and a messages array
of two or more entries passes the per-line checks. -/
lemma checkLine_ok (o : List (String × Json)) (m : List Json)
    (hk : hasKey o "system" = true) (hm : getVal o "messages" = some (Json.arr m))
    (hl : 2 ≤ m.length) : checkLine (some (Json.obj o)) = true := by
  have e1 : checkLine (some (Json.obj o))
      = (hasKey o "system" && checkMessages (getVal o "messages")) := rfl
  rw [e1, hk, hm, Bool.true_and]
  show decide (2 ≤ m.length) = true
  exact decide_eq_true hl

/-! The claims. -/

/-- C1: the spec says create_fine_tuning_job records the job handle into the
persisted PipelineState immediately. The code stores the job ARN into the
in-memory dict self.config and then calls _save_config, but _save_config
rebuilds the file from the five instance attributes only, so the written
file carries no job identifier (and no model identifier either): evaluated
on a successful concrete submission, the call returns the job ARN and puts
it in self.config, yet the one file written during the call maps job_arn and
model_arn to nothing, its keys being exactly the six rebuilt ones. -/
theorem create_fine_tuning_job_save_omits_job_arn :
    sampleSubmission.1 = Except.ok sampleJobArn ∧
    lookupKey sampleSubmission.2.1.config "job_arn" = some (ConfigVal.str sampleJobArn) ∧
    savedConfigsOf sampleSubmission.2.2
      = [save_config samplePipeline.fields "2026-10-12T00:00:00"] ∧
    lookupKey (save_config samplePipeline.fields "2026-10-12T00:00:00") "job_arn" = none ∧
    lookupKey (save_config samplePipeline.fields "2026-10-12T00:00:00") "model_arn" = none ∧
    (save_config samplePipeline.fields "2026-10-12T00:00:00").map Prod.fst
      = ["bucket_name", "model_name", "role_arn", "role_name", "region", "last_updated"] :=
  ⟨rfl, rfl, rfl, rfl, rfl, rfl⟩

/-- C2 counterexample: the claim says the value returned after a keyboard
interruption is never equal to the value returned when the job status is
Failed or Stopped; on the code both are None, so at these concrete inputs
the two returned values are equal. -/
theorem monitor_interrupt_equals_failed_value :
    (monitor_training_job sampleJobArn [PollEvent.interrupt]).1
      = (monitor_training_job sampleJobArn [PollEvent.resp failedResponse]).1 := rfl

/-- C2 amended: a keyboard interruption makes monitor_training_job return
None, and a Failed or Stopped status also yields None — the two outcomes
coincide in returned value (they differ only in printed output); only a
Completed status carrying an output model identifier returns a distinct
non-None value. -/
theorem monitor_outcomes_amended (jn : String) (t₁ t₂ t₃ : List PollEvent)
    (r c : JobResponse) (hr : r.status = "Failed" ∨ r.status = "Stopped")
    (m : String) (hc : c.status = "Completed") (hm : c.outputModelArn = some m) :
    (monitor_go jn (PollEvent.interrupt :: t₁)).1 = none ∧
    (monitor_go jn (PollEvent.resp r :: t₂)).1 = none ∧
    (monitor_go jn (PollEvent.resp c :: t₃)).1 = some m := by
  refine ⟨rfl, ?_, ?_⟩
  · rw [monitor_go_failed_or_stopped jn r t₂ hr]
  · rw [monitor_go_completed jn c t₃ hc]
    exact hm

/-- C2 amended, witnessed at concrete inputs. -/
theorem monitor_outcomes_amended_witness :
    (failedResponse.status = "Failed" ∨ failedResponse.status = "Stopped") ∧
    completedResponse.status = "Completed" ∧
    completedResponse.outputModelArn = some "model-xyz" ∧
    ((monitor_go "test123" [PollEvent.interrupt]).1 = none ∧
     (monitor_go "test123" [PollEvent.resp failedResponse]).1 = none ∧
     (monitor_go "test123" [PollEvent.resp completedResponse]).1 = some "model-xyz") :=
  ⟨Or.inl rfl, rfl, rfl,
    monitor_outcomes_amended "test123" [] [] [] failedResponse completedResponse
      (Or.inl rfl) "model-xyz" rfl rfl⟩

/-- C3 counterexample: the claim says that with no recorded role the
submission fails fast locally without issuing any provider request; on the
code, a concrete call with role_arn None issues the
create_model_customization_job request (carrying roleArn None) and, when the
provider accepts it, even succeeds. -/
theorem submit_without_role_issues_request :
    requestsOf sampleSubmissionNoRole.2.2
      = [AwsRequest.createModelCustomizationJob "support-classifier-1700000000" none
          "s3://t" "s3://v" "s3://support-bedrock-training-1700000000/output/"] ∧
    sampleSubmissionNoRole.1 = Except.ok sampleJobArn :=
  ⟨rfl, rfl⟩

/-- C3 amended: create_fine_tuning_job performs no local check that a role
has been recorded; for every state and argument it issues exactly one
create_model_customization_job request to the provider, passing along
whatever roleArn value it received, None included. -/
theorem create_fine_tuning_job_always_requests (p : Pipeline) (t v : String)
    (role_arn : Option String) (resp : Except String String) (now : String) :
    requestsOf (create_fine_tuning_job p t v role_arn resp now).2.2
      = [AwsRequest.createModelCustomizationJob p.fields.model_name role_arn t v
          ("s3://" ++ p.fields.bucket_name ++ "/output/")] := by
  cases resp <;> rfl

/-- C4: with a populated state record whose existence probe succeeds,
calling create_s3_bucket twice returns the recorded bucket name both times,
and calling create_iam_role twice returns the recorded role ARN both times,
with not a single creation request in the four traces combined. -/
theorem resource_reuse_idempotent (f : PipelineFields) (cfg : List (String × ConfigVal))
    (c : Bool) (a : String) (ts : Nat) (pa n1 n2 n3 n4 : String) :
    (create_s3_bucket ⟨f, cfg⟩ true c n1).1 = Except.ok f.bucket_name ∧
    (create_s3_bucket (create_s3_bucket ⟨f, cfg⟩ true c n1).2.1 true c n2).1
      = (create_s3_bucket ⟨f, cfg⟩ true c n1).1 ∧
    ((create_s3_bucket ⟨f, cfg⟩ true c n1).2.2 ++
        (create_s3_bucket (create_s3_bucket ⟨f, cfg⟩ true c n1).2.1 true c n2).2.2).filter
      isCreationRequest = [] ∧
    (create_iam_role ⟨{ f with role_arn := some a }, cfg⟩ true c ts pa n3).1
      = Except.ok a ∧
    (create_iam_role
        (create_iam_role ⟨{ f with role_arn := some a }, cfg⟩ true c ts pa n3).2.1
        true c ts pa n4).1
      = (create_iam_role ⟨{ f with role_arn := some a }, cfg⟩ true c ts pa n3).1 ∧
    ((create_iam_role ⟨{ f with role_arn := some a }, cfg⟩ true c ts pa n3).2.2 ++
        (create_iam_role
          (create_iam_role ⟨{ f with role_arn := some a }, cfg⟩ true c ts pa n3).2.1
          true c ts pa n4).2.2).filter
      isCreationRequest = [] :=
  ⟨rfl, rfl, rfl, rfl, rfl, rfl⟩

/-- C5: once the status source sits in a terminal state, monitoring is
idempotent: a first and a second call both return the outcome of that
terminal response whatever the later events are, and each call issues just
the one read-only status query — no request that could move the job out of
its terminal state. -/
theorem monitor_terminal_idempotent (jn : String) (r : JobResponse)
    (t₁ t₂ : List PollEvent)
    (h : r.status = "Completed" ∨ r.status = "Failed" ∨ r.status = "Stopped") :
    (monitor_go jn (PollEvent.resp r :: t₁)).1 = (monitor_go jn (PollEvent.resp r :: t₂)).1 ∧
    (monitor_go jn (PollEvent.resp r :: t₁)).1 = outcomeOfResponse r ∧
    (monitor_go jn (PollEvent.resp r :: t₁)).2 = [AwsRequest.getModelCustomizationJob jn] ∧
    (monitor_go jn (PollEvent.resp r :: t₂)).2 = [AwsRequest.getModelCustomizationJob jn] := by
  rcases h with h | h
  · rw [monitor_go_completed jn r t₁ h, monitor_go_completed jn r t₂ h]
    refine ⟨rfl, ?_, rfl, rfl⟩
    unfold outcomeOfResponse
    rw [if_pos h]
  · rw [monitor_go_failed_or_stopped jn r t₁ h, monitor_go_failed_or_stopped jn r t₂ h]
    refine ⟨rfl, ?_, rfl, rfl⟩
    unfold outcomeOfResponse
    rw [if_neg (by rcases h with h | h <;> rw [h] <;> decide)]

/-- C5, witnessed at a concrete Completed response observed twice. -/
theorem monitor_terminal_idempotent_witness :
    (completedResponse.status = "Completed" ∨ completedResponse.status = "Failed" ∨
      completedResponse.status = "Stopped") ∧
    ((monitor_go "test123" [PollEvent.resp completedResponse]).1
        = (monitor_go "test123" [PollEvent.resp completedResponse,
            PollEvent.resp completedResponse]).1 ∧
     (monitor_go "test123" [PollEvent.resp completedResponse]).1
        = outcomeOfResponse completedResponse ∧
     (monitor_go "test123" [PollEvent.resp completedResponse]).2
        = [AwsRequest.getModelCustomizationJob "test123"] ∧
     (monitor_go "test123" [PollEvent.resp completedResponse,
         PollEvent.resp completedResponse]).2
        = [AwsRequest.getModelCustomizationJob "test123"]) :=
  ⟨Or.inl rfl,
    monitor_terminal_idempotent "test123" completedResponse []
      [PollEvent.resp completedResponse] (Or.inl rfl)⟩

/-- C6: whenever the input frame yields fewer than 8 training examples,
prepare_training_data raises the ValueError of line 302, and in the pipeline
sequence this happens before upload_to_s3 is attempted: the upload step is
absent from the executed steps. -/
theorem floor_failure_before_upload (sampler : List Row → Nat → List Row) (df : List Row)
    (h : (trainingDataOf sampler df 10000).length < 8) :
    prepare_training_data sampler df 10000
      = Except.error (notEnoughMsg (trainingDataOf sampler df 10000).length) ∧
    Step.uploadS3 ∉ run_pipeline_after_load sampler df := by
  have hp : prepare_training_data sampler df 10000
      = Except.error (notEnoughMsg (trainingDataOf sampler df 10000).length) := by
    unfold prepare_training_data
    rw [if_pos h]
  refine ⟨hp, ?_⟩
  unfold run_pipeline_after_load
  rw [hp]
  show Step.uploadS3 ∉ [Step.prepareData]
  decide

/-- C6, witnessed at three well-formed rows, which generate four training
examples against the floor of eight. -/
theorem floor_failure_before_upload_witness :
    (trainingDataOf takeSampler df3 10000).length < 8 ∧
    (prepare_training_data takeSampler df3 10000
        = Except.error (notEnoughMsg (trainingDataOf takeSampler df3 10000).length) ∧
     Step.uploadS3 ∉ run_pipeline_after_load takeSampler df3) :=
  ⟨by decide, floor_failure_before_upload takeSampler df3 (by decide)⟩

/-- C7: for every input frame and sampler, under the default parameters the
outcome of preparation satisfies the DatasetSplit invariant: every produced
example carries a system turn and a user/assistant message pair, and the
training list never exceeds the 10000 ceiling, which the final trim
enforces. -/
theorem prepare_examples_invariant (sampler : List Row → Nat → List Row) (df : List Row) :
    ExamplesInvariant (prepare_training_data sampler df 10000) := by
  unfold prepare_training_data
  split
  · exact trivial
  · refine ⟨?_, ?_⟩
    · rw [List.all_append, Bool.and_eq_true]
      unfold trainingDataOf rawTrainingData validationDataOf
      exact ⟨trimmedTo_all 10000 (trainExamples_all _), valExamples_all _⟩
    · exact trimmedTo_length_le 10000 _

/-- C9: rows whose CATEGORY (or SEVERITY) is NaN are skipped silently and
generate nothing, and the floor of 8 is checked on the generated examples
only: a frame of 8 or more rows whose CATEGORY is always NaN generates an
empty training list and still raises the not-enough-samples ValueError. -/
theorem null_rows_skipped_floor_raises (sampler : List Row → Nat → List Row)
    (hsub : ∀ df n x, x ∈ sampler df n → x ∈ df)
    (df : List Row) (hnull : ∀ r ∈ df, r.category = none) (_hlen : 8 ≤ df.length) :
    rawTrainingData sampler df 10000 = [] ∧
    prepare_training_data sampler df 10000 = Except.error (notEnoughMsg 0) := by
  have hs : ∀ r ∈ sampledDf sampler df 10000, r.category = none := by
    intro r hr
    unfold sampledDf at hr
    split at hr
    · exact hnull r (hsub df (max_tickets 10000) r hr)
    · exact hnull r hr
  have hraw : rawTrainingData sampler df 10000 = [] := by
    unfold rawTrainingData
    exact trainExamples_nil _ (fun r hr => hs r (List.take_subset _ _ hr))
  have htd : trainingDataOf sampler df 10000 = [] := by
    unfold trainingDataOf
    rw [hraw]
    rfl
  refine ⟨hraw, ?_⟩
  unfold prepare_training_data
  rw [htd]
  rfl

/-- C9, witnessed at eight rows all carrying a NaN CATEGORY. -/
theorem null_rows_skipped_floor_raises_witness :
    (∀ df n x, x ∈ takeSampler df n → x ∈ df) ∧
    (∀ r ∈ df8nulls, r.category = none) ∧
    8 ≤ df8nulls.length ∧
    (rawTrainingData takeSampler df8nulls 10000 = [] ∧
     prepare_training_data takeSampler df8nulls 10000 = Except.error (notEnoughMsg 0)) :=
  ⟨fun df n x hx => List.take_subset n df hx, by decide, by decide,
    null_rows_skipped_floor_raises takeSampler (fun df n x hx => List.take_subset n df hx)
      df8nulls (by decide) (by decide)⟩

/-- C10: _validate_jsonl_format inspects only lines[:3] — when the first
three lines parse to objects that hold a system key and a messages value of
len at least 2, validation succeeds whatever the remaining lines contain,
malformed JSON included. -/
theorem validate_inspects_first_three
    (o₁ o₂ o₃ : List (String × Json)) (m₁ m₂ m₃ : List Json) (rest : List (Option Json))
    (hk₁ : hasKey o₁ "system" = true) (hm₁ : getVal o₁ "messages" = some (Json.arr m₁))
    (hl₁ : 2 ≤ m₁.length)
    (hk₂ : hasKey o₂ "system" = true) (hm₂ : getVal o₂ "messages" = some (Json.arr m₂))
    (hl₂ : 2 ≤ m₂.length)
    (hk₃ : hasKey o₃ "system" = true) (hm₃ : getVal o₃ "messages" = some (Json.arr m₃))
    (hl₃ : 2 ≤ m₃.length) :
    validate_jsonl_format
      (some (Json.obj o₁) :: some (Json.obj o₂) :: some (Json.obj o₃) :: rest) = true := by
  have t3 : (some (Json.obj o₁) :: some (Json.obj o₂) :: some (Json.obj o₃) :: rest).take 3
      = [some (Json.obj o₁), some (Json.obj o₂), some (Json.obj o₃)] := rfl
  unfold validate_jsonl_format
  rw [t3]
  simp [checkLine_ok o₁ m₁ hk₁ hm₁ hl₁, checkLine_ok o₂ m₂ hk₂ hm₂ hl₂,
    checkLine_ok o₃ m₃ hk₃ hm₃ hl₃]

/-- C10, witnessed with three valid lines followed by a malformed fourth
line (a failed json.loads), which validation never looks at. -/
theorem validate_inspects_first_three_witness :
    hasKey goodJsonLine "system" = true ∧
    getVal goodJsonLine "messages" = some (Json.arr goodMessages) ∧
    2 ≤ goodMessages.length ∧
    validate_jsonl_format (some (Json.obj goodJsonLine) :: some (Json.obj goodJsonLine) ::
      some (Json.obj goodJsonLine) :: [none]) = true :=
  ⟨rfl, rfl, by decide,
    validate_inspects_first_three goodJsonLine goodJsonLine goodJsonLine
      goodMessages goodMessages goodMessages [none]
      rfl rfl (by decide) rfl rfl (by decide) rfl rfl (by decide)⟩

/-- C8: on the reuse path (a recorded role whose probe succeeds)
create_iam_role performs no wait at all; on both creation paths (no recorded
role, or a recorded role whose probe fails) a successful creation is
followed by the fixed, hard-coded 10-second settle sleep, placed after the
create_role and put_role_policy requests and before the operation returns
its result. -/
theorem iam_settle_wait_fixed (f : PipelineFields) (cfg : List (String × ConfigVal))
    (g c : Bool) (ts : Nat) (pa now a : String) :
    sleepsOf (create_iam_role ⟨{ f with role_arn := some a }, cfg⟩ true c ts pa now).2.2
      = [] ∧
    (create_iam_role ⟨{ f with role_arn := none }, cfg⟩ g true ts pa now).2.2
      = [Action.request (AwsRequest.createRole (roleNameFor ts)),
         Action.request (AwsRequest.putRolePolicy (roleNameFor ts)),
         Action.sleep 10,
         Action.saveConfig (save_config
           { f with role_name := some (roleNameFor ts), role_arn := some pa } now)] ∧
    sleepsOf (create_iam_role ⟨{ f with role_arn := some a }, cfg⟩ false true ts pa now).2.2
      = [10] :=
  ⟨rfl, rfl, rfl⟩

end BedrockPipeline
